import Mathlib

/-!
Shallow embedding of `transport/websocket.go` (package `transport`) from the
`golang-socketio` repository: the WebSocket transport configuration, the
per-peer connection with its read/write/ping-params operations, and the
server-side `HandleConnection` accept path.

Interaction with collaborators that live outside this file (the gorilla
websocket library and the Go `net/http` layer) is modelled oracle-style:
each call takes the collaborator's response as an explicit argument, and
side effects on the response writer or socket are threaded as state.
-/

namespace transport

/-! Go `time.Duration` is an integer count of nanoseconds. -/

abbrev Duration := Int

/-- Go `time.Second`: one second expressed in nanoseconds. -/
def timeSecond : Duration := 1000000000

/-- Go constant `upgradeFailed` from websocket.go. -/
def upgradeFailed : String := "Upgrade failed: "

/-- Go constant `WsDefaultPingInterval = 30 * time.Second`. -/
def WsDefaultPingInterval : Duration := 30 * timeSecond

/-- Go constant `WsDefaultPingTimeout = 60 * time.Second`. -/
def WsDefaultPingTimeout : Duration := 60 * timeSecond

/-- Go constant `WsDefaultReceiveTimeout = 60 * time.Second`. -/
def WsDefaultReceiveTimeout : Duration := 60 * timeSecond

/-- Go constant `WsDefaultSendTimeout = 60 * time.Second`. -/
def WsDefaultSendTimeout : Duration := 60 * timeSecond

/-- Go constant `WsDefaultBufferSize = 1024 * 32`. -/
def WsDefaultBufferSize : Int := 1024 * 32

/-- Go error values. The five sentinels declared in websocket.go are
distinct constructors; every other error produced by the lower layers
(gorilla websocket, net, deadline violations, ...) is `lowLevel` carrying
its message, so that value identity of a propagated error is observable. -/
inductive GoError where
  | ErrorBinaryMessage
  | ErrorBadBuffer
  | ErrorPacketWrong
  | ErrorMethodNotAllowed
  | ErrorHttpUpgradeFailed
  | lowLevel (msg : String)
deriving DecidableEq

/-- Go `err.Error()`: the message of each error value, exactly the strings
passed to `errors.New` in websocket.go. -/
def GoError.Error : GoError → String
  | .ErrorBinaryMessage => "Binary messages are not supported"
  | .ErrorBadBuffer => "Buffer error"
  | .ErrorPacketWrong => "Wrong packet type error"
  | .ErrorMethodNotAllowed => "Method not allowed"
  | .ErrorHttpUpgradeFailed => "Http upgrade failed"
  | .lowLevel msg => msg

/-- Modelled from the spec: `errMethodNotAllowed`, referenced by
`HandleConnection` but declared outside this file. The spec's error
taxonomy has a single wrong-method sentinel, `ErrorMethodNotAllowed`
("Method not allowed"), so the lowercase reference denotes that sentinel. -/
def errMethodNotAllowed : GoError := GoError.ErrorMethodNotAllowed

/-- Modelled from the spec: `errHttpUpgradeFailed`, referenced by
`HandleConnection` but declared outside this file. The spec's error
taxonomy has a single failed-upgrade sentinel, `ErrorHttpUpgradeFailed`,
so the lowercase reference denotes that sentinel. -/
def errHttpUpgradeFailed : GoError := GoError.ErrorHttpUpgradeFailed

/-! Constants of the gorilla websocket and net/http collaborators. -/

/-- gorilla `websocket.TextMessage = 1`. -/
def TextMessage : Int := 1

/-- gorilla `websocket.BinaryMessage = 2`. -/
def BinaryMessage : Int := 2

/-- Go `http.MethodGet`. -/
def MethodGet : String := "GET"

/-- Go `http.StatusServiceUnavailable = 503`. -/
def StatusServiceUnavailable : Int := 503

/-- Go `http.StatusMethodNotAllowed = 405` (the "method not allowed"-class
status), used to interpret the spec's response-class vocabulary. -/
def StatusMethodNotAllowed : Int := 405

/-- Go `http.Header` (`map[string][]string`), as an association list. -/
abbrev Header := List (String × List String)

/-- Opaque stand-in for `*tls.Config`; distinct policies have distinct ids.
The transport never inspects it, only stores and forwards it. -/
structure TlsConfig where
  id : Nat
deriving DecidableEq

/-- State of one gorilla `*websocket.Conn`: the deadlines set through
SetReadDeadline/SetWriteDeadline and the transcript of text frames the
connection has successfully finalized onto the wire. -/
structure WsSocket where
  readDeadline : Duration
  writeDeadline : Duration
  sent : List String
deriving DecidableEq

/-- Go struct `WebsocketTransport` from websocket.go. -/
structure WebsocketTransport where
  PingInterval : Duration
  PingTimeout : Duration
  ReceiveTimeout : Duration
  SendTimeout : Duration
  BufferSize : Int
  Headers : Option Header
  TLSClientConfig : Option TlsConfig
deriving DecidableEq

/-- Go struct `WebsocketConnection`: one socket plus the back-reference to
the transport config that created it. -/
structure WebsocketConnection where
  socket : WsSocket
  transport : WebsocketTransport
deriving DecidableEq

/-- Outcome of one `socket.NextReader()` interaction as decided by the
peer and the lower layers: either NextReader itself fails, or it yields a
frame of some message type whose body `ioutil.ReadAll` then either drains
fully or fails. -/
inductive ReadEvent where
  | nextReaderErr (e : GoError)
  | frame (msgType : Int) (body : Except GoError String)

/-- Go `WebsocketConnection.GetMessage` (the read operation). `now` is the
current clock reading and `ev` the underlying socket's behaviour for this
call. Returns the Go result `(message, err)` as an `Except`, paired with
the connection state after the call. -/
def GetMessage (wsc : WebsocketConnection) (now : Duration) (ev : ReadEvent) :
    Except GoError String × WebsocketConnection :=
  let wsc := { wsc with
    socket := { wsc.socket with readDeadline := now + wsc.transport.ReceiveTimeout } }
  match ev with
  | .nextReaderErr err => (.error err, wsc)
  | .frame msgType body =>
    if msgType ≠ TextMessage then
      (.error .ErrorBinaryMessage, wsc)
    else
      match body with
      | .error _ => (.error .ErrorBadBuffer, wsc)
      | .ok data =>
        let text := data
        if text.length = 0 then
          (.error .ErrorPacketWrong, wsc)
        else
          (.ok text, wsc)

/-- Outcome of the three socket interactions of one `WriteMessage` call:
`socket.NextWriter`, `writer.Write`, `writer.Close`, each either
succeeding (`none`) or failing with a lower-level error. -/
structure WriteOutcome where
  nextWriterErr : Option GoError
  writeErr : Option GoError
  closeErr : Option GoError
deriving DecidableEq

/-- Go `WebsocketConnection.WriteMessage`. Sets the write deadline, then
opens a text-frame writer, writes the payload, and closes the writer,
returning the first error among the three steps; a frame reaches the
transcript only when all three succeed. -/
def WriteMessage (wsc : WebsocketConnection) (now : Duration) (o : WriteOutcome)
    (message : String) : Option GoError × WebsocketConnection :=
  let wsc := { wsc with
    socket := { wsc.socket with writeDeadline := now + wsc.transport.SendTimeout } }
  match o.nextWriterErr with
  | some err => (some err, wsc)
  | none =>
    match o.writeErr with
    | some err => (some err, wsc)
    | none =>
      match o.closeErr with
      | some err => (some err, wsc)
      | none =>
        (none, { wsc with
          socket := { wsc.socket with sent := wsc.socket.sent ++ [message] } })

/-- Go `WebsocketConnection.PingParams`. -/
def PingParams (wsc : WebsocketConnection) : Duration × Duration :=
  (wsc.transport.PingInterval, wsc.transport.PingTimeout)

/-- Go `http.ResponseWriter`, observed through the responses written on it
via `http.Error` as (status code, body) pairs. -/
structure ResponseWriter where
  responses : List (Int × String)
deriving DecidableEq

/-- Go `http.Error(w, msg, code)`: records one response on the writer. -/
def httpError (w : ResponseWriter) (msg : String) (code : Int) : ResponseWriter :=
  { w with responses := w.responses ++ [(code, msg)] }

/-- Go `*http.Request`, reduced to the field websocket.go inspects. -/
structure Request where
  method : String
deriving DecidableEq

/-- Go `WebsocketTransport.HandleConnection`. `upgradeResult` is the
oracle for the `websocket.Upgrader.Upgrade` handshake (only consulted on a
GET request): a fresh socket on success, a handshake error otherwise.
Returns (connection, error, writer state after the call). -/
def HandleConnection (t : WebsocketTransport) (w : ResponseWriter) (r : Request)
    (upgradeResult : Except GoError WsSocket) :
    Option WebsocketConnection × Option GoError × ResponseWriter :=
  if r.method ≠ MethodGet then
    (none, some errMethodNotAllowed,
      httpError w (upgradeFailed ++ errMethodNotAllowed.Error) StatusServiceUnavailable)
  else
    match upgradeResult with
    | .error err =>
      (none, some errHttpUpgradeFailed,
        httpError w (upgradeFailed ++ err.Error) StatusServiceUnavailable)
    | .ok socket =>
      (some { socket := socket, transport := t }, none, w)

/-- Go `GeDefaultWebsocketTransport`: the default-config factory. The
remaining fields (`Headers`, `TLSClientConfig`) are left at their Go zero
values, i.e. nil. -/
def GeDefaultWebsocketTransport : WebsocketTransport :=
  { PingInterval := WsDefaultPingInterval
    PingTimeout := WsDefaultPingTimeout
    ReceiveTimeout := WsDefaultReceiveTimeout
    SendTimeout := WsDefaultSendTimeout
    BufferSize := WsDefaultBufferSize
    Headers := none
    TLSClientConfig := none }

/-- Modelled from the spec: `GetDefaultWebsocketTransport`, called by
`TlsWebsocketTransport` but declared outside this file. The spec mandates
a single canonical default-config factory (the capitalized and lookalike
identifiers denote the same API), so it coincides with
`GeDefaultWebsocketTransport`. -/
def GetDefaultWebsocketTransport : WebsocketTransport :=
  GeDefaultWebsocketTransport

/-- Go `TlsWebsocketTransport`: seeds a config from the defaults factory
and overwrites its `Headers` and `TLSClientConfig` fields. -/
def TlsWebsocketTransport (headers : Option Header)
    (tlsClientConfig : Option TlsConfig) : WebsocketTransport :=
  let tr := GetDefaultWebsocketTransport
  { tr with Headers := headers, TLSClientConfig := tlsClientConfig }

/-- Sample freshly-established socket, used as a concrete input. -/
def sampleSocket : WsSocket :=
  { readDeadline := 0, writeDeadline := 0, sent := [] }

/-- Sample connection over the default transport, used as a concrete input. -/
def sampleConn : WebsocketConnection :=
  { socket := sampleSocket, transport := GeDefaultWebsocketTransport }

end transport

namespace transport

/-- C1: `GeDefaultWebsocketTransport` returns a configuration whose fields
are exactly: ping interval 30 s, ping timeout 60 s, receive timeout 60 s,
send timeout 60 s, buffer size 32768 bytes, no headers, no TLS override. -/
theorem default_transport_fields :
    GeDefaultWebsocketTransport.PingInterval = 30 * timeSecond ∧
    GeDefaultWebsocketTransport.PingTimeout = 60 * timeSecond ∧
    GeDefaultWebsocketTransport.ReceiveTimeout = 60 * timeSecond ∧
    GeDefaultWebsocketTransport.SendTimeout = 60 * timeSecond ∧
    GeDefaultWebsocketTransport.BufferSize = 32768 ∧
    GeDefaultWebsocketTransport.Headers = none ∧
    GeDefaultWebsocketTransport.TLSClientConfig = none := by
  refine ⟨rfl, rfl, rfl, rfl, by decide, rfl, rfl⟩

/-- C2: for every frame whose type is not the text frame type, reached by
`GetMessage` (NextReader succeeded), the call fails with
`ErrorBinaryMessage`, regardless of what the body would have decoded to —
no decoded string is ever returned for such a frame. -/
theorem getMessage_binary_rejected (wsc : WebsocketConnection) (now : Duration)
    (msgType : Int) (body : Except GoError String) (h : msgType ≠ TextMessage) :
    (GetMessage wsc now (ReadEvent.frame msgType body)).1
      = Except.error GoError.ErrorBinaryMessage := by
  simp [GetMessage, h]

/-- C2 witness: a binary frame (gorilla type 2) with a nonempty readable
body is rejected with `ErrorBinaryMessage` on the sample connection. -/
theorem getMessage_binary_rejected_witness :
    (GetMessage sampleConn 0 (ReadEvent.frame BinaryMessage (Except.ok "abc"))).1
      = Except.error GoError.ErrorBinaryMessage :=
  getMessage_binary_rejected sampleConn 0 BinaryMessage (Except.ok "abc") (by decide)

/-- C3: for every text frame whose fully-read body decodes to a string of
zero length, `GetMessage` fails with `ErrorPacketWrong`; the empty string
is never returned as a success value. -/
theorem getMessage_empty_rejected (wsc : WebsocketConnection) (now : Duration)
    (data : String) (h : data.length = 0) :
    (GetMessage wsc now (ReadEvent.frame TextMessage (Except.ok data))).1
      = Except.error GoError.ErrorPacketWrong := by
  simp [GetMessage, h]

/-- C3 witness: a zero-length text frame is rejected with
`ErrorPacketWrong` on the sample connection. -/
theorem getMessage_empty_rejected_witness :
    (GetMessage sampleConn 0 (ReadEvent.frame TextMessage (Except.ok ""))).1
      = Except.error GoError.ErrorPacketWrong :=
  getMessage_empty_rejected sampleConn 0 "" (by decide)

/-- C4: for every read call, an error from `NextReader` — including a
deadline-exceeded error — is returned to the caller as the very same
value, unwrapped and untranslated; whereas a failure while draining the
frame body of a text frame is reported as the fixed sentinel
`ErrorBadBuffer` whatever the underlying body-read error was. -/
theorem getMessage_error_propagation (wsc : WebsocketConnection)
    (now : Duration) (e : GoError) :
    (GetMessage wsc now (ReadEvent.nextReaderErr e)).1 = Except.error e ∧
    (GetMessage wsc now (ReadEvent.frame TextMessage (Except.error e))).1
      = Except.error GoError.ErrorBadBuffer := by
  constructor
  · rfl
  · simp [GetMessage]

/-- C5: `WriteMessage` returns success exactly when opening the writer,
writing the payload and finalizing the frame all succeed (and then the
full payload is appended to the wire transcript); otherwise it returns the
first failure among the three steps in that order, each surfaced as the
step's own error value. -/
theorem writeMessage_first_failure (wsc : WebsocketConnection) (now : Duration)
    (o : WriteOutcome) (message : String) :
    ((WriteMessage wsc now o message).1 = none ↔
      o.nextWriterErr = none ∧ o.writeErr = none ∧ o.closeErr = none) ∧
    ((WriteMessage wsc now o message).1 = none →
      (WriteMessage wsc now o message).2.socket.sent
        = wsc.socket.sent ++ [message]) ∧
    (∀ e, o.nextWriterErr = some e →
      (WriteMessage wsc now o message).1 = some e) ∧
    (∀ e, o.nextWriterErr = none → o.writeErr = some e →
      (WriteMessage wsc now o message).1 = some e) ∧
    (∀ e, o.nextWriterErr = none → o.writeErr = none → o.closeErr = some e →
      (WriteMessage wsc now o message).1 = some e) := by
  rcases o with ⟨nwErr, wErr, cErr⟩
  cases nwErr <;> cases wErr <;> cases cErr <;>
    simp [WriteMessage]

/-- C5 witness: on the sample connection, with all three steps succeeding
the call returns success and appends the payload; with the finalize step
failing the call surfaces exactly that failure. -/
theorem writeMessage_first_failure_witness :
    ((WriteMessage sampleConn 0 ⟨none, none, none⟩ "hello").1 = none ↔
      (none : Option GoError) = none ∧ (none : Option GoError) = none ∧
      (none : Option GoError) = none) ∧
    (WriteMessage sampleConn 0
        ⟨none, none, some (GoError.lowLevel "close failed")⟩ "hello").1
      = some (GoError.lowLevel "close failed") :=
  ⟨(writeMessage_first_failure sampleConn 0 ⟨none, none, none⟩ "hello").1,
   (writeMessage_first_failure sampleConn 0
      ⟨none, none, some (GoError.lowLevel "close failed")⟩ "hello").2.2.2.2
     (GoError.lowLevel "close failed") rfl rfl rfl⟩

/-- C6 counterexample: on a POST request, `HandleConnection` writes a
response whose status is `StatusServiceUnavailable` (503) — not the
"method not allowed"-class status 405 — so the response written before
returning `ErrorMethodNotAllowed` is a service-unavailable-class one. -/
theorem handleConnection_method_response_class :
    (HandleConnection GeDefaultWebsocketTransport ⟨[]⟩ ⟨"POST"⟩
        (Except.ok sampleSocket)).2.2.responses
      = [(StatusServiceUnavailable, "Upgrade failed: Method not allowed")] ∧
    StatusServiceUnavailable ≠ StatusMethodNotAllowed := by
  exact ⟨rfl, by decide⟩

/-- C6 (amended): for every inbound request whose method is not GET,
`HandleConnection` returns `ErrorMethodNotAllowed` and no connection, and
before returning writes a service-unavailable-class (503) response whose
body is "Upgrade failed: " followed by the method-not-allowed reason; the
result is the same for every upgrade-handshake oracle, i.e. the handshake
is never attempted. -/
theorem handleConnection_method_not_allowed (t : WebsocketTransport)
    (w : ResponseWriter) (r : Request) (u : Except GoError WsSocket)
    (h : r.method ≠ MethodGet) :
    HandleConnection t w r u
      = (none, some GoError.ErrorMethodNotAllowed,
          { responses := w.responses ++
              [(StatusServiceUnavailable, "Upgrade failed: Method not allowed")] }) ∧
    (∀ u2 : Except GoError WsSocket,
      HandleConnection t w r u = HandleConnection t w r u2) := by
  constructor
  · simp [HandleConnection, h, httpError, errMethodNotAllowed, GoError.Error,
      upgradeFailed]
  · intro u2
    simp [HandleConnection, h]

/-- C6 witness: concrete POST request against the default transport with
an empty response writer. -/
theorem handleConnection_method_not_allowed_witness :
    HandleConnection GeDefaultWebsocketTransport ⟨[]⟩ ⟨"POST"⟩
        (Except.error (GoError.lowLevel "unused"))
      = (none, some GoError.ErrorMethodNotAllowed,
          ⟨[(StatusServiceUnavailable, "Upgrade failed: Method not allowed")]⟩) :=
  (handleConnection_method_not_allowed GeDefaultWebsocketTransport ⟨[]⟩ ⟨"POST"⟩
    (Except.error (GoError.lowLevel "unused")) (by decide)).1

/-- C7: for every GET request whose upgrade handshake fails with some
underlying error, `HandleConnection` writes a service-unavailable-class
(503) response whose body is "Upgrade failed: " concatenated with that
error's detail, and returns no connection together with the fixed
sentinel `ErrorHttpUpgradeFailed` — independent of the underlying error,
whose detail appears only in the peer-visible response body. -/
theorem handleConnection_upgrade_failed (t : WebsocketTransport)
    (w : ResponseWriter) (r : Request) (e : GoError) (h : r.method = MethodGet) :
    HandleConnection t w r (Except.error e)
      = (none, some GoError.ErrorHttpUpgradeFailed,
          { responses := w.responses ++
              [(StatusServiceUnavailable, upgradeFailed ++ e.Error)] }) := by
  simp [HandleConnection, h, httpError, errHttpUpgradeFailed]

/-- C7 witness: a GET request whose handshake fails with a concrete
lower-level error; the detail lands in the response body only. -/
theorem handleConnection_upgrade_failed_witness :
    HandleConnection GeDefaultWebsocketTransport ⟨[]⟩ ⟨"GET"⟩
        (Except.error (GoError.lowLevel "handshake refused"))
      = (none, some GoError.ErrorHttpUpgradeFailed,
          ⟨[(StatusServiceUnavailable, upgradeFailed ++ "handshake refused")]⟩) :=
  handleConnection_upgrade_failed GeDefaultWebsocketTransport ⟨[]⟩ ⟨"GET"⟩
    (GoError.lowLevel "handshake refused") rfl

/-- One read or write operation driven against a connection, with the
clock reading and the socket-layer behaviour for that call. -/
inductive ConnOp where
  | read (now : Duration) (ev : ReadEvent)
  | write (now : Duration) (o : WriteOutcome) (message : String)

/-- Drives a sequence of read/write operations against a connection,
threading the connection state. -/
def runOps (wsc : WebsocketConnection) : List ConnOp → WebsocketConnection
  | [] => wsc
  | ConnOp.read now ev :: rest => runOps (GetMessage wsc now ev).2 rest
  | ConnOp.write now o m :: rest => runOps (WriteMessage wsc now o m).2 rest

/-- Reads never touch the connection's transport back-reference. -/
theorem getMessage_transport_eq (wsc : WebsocketConnection) (now : Duration)
    (ev : ReadEvent) : (GetMessage wsc now ev).2.transport = wsc.transport := by
  rcases ev with e | ⟨msgType, body⟩
  · rfl
  · by_cases h : msgType ≠ TextMessage
    · simp [GetMessage, h]
    · rcases body with e | data
      · simp [GetMessage, h]
      · by_cases h2 : data.length = 0 <;> simp [GetMessage, h, h2]

/-- Writes never touch the connection's transport back-reference. -/
theorem writeMessage_transport_eq (wsc : WebsocketConnection) (now : Duration)
    (o : WriteOutcome) (m : String) :
    (WriteMessage wsc now o m).2.transport = wsc.transport := by
  rcases o with ⟨nwErr, wErr, cErr⟩
  cases nwErr <;> cases wErr <;> cases cErr <;> simp [WriteMessage]

/-- C8: `PingParams` is a pure accessor — after any finite sequence of
read and write operations, whatever their outcomes, it still returns
exactly the `PingInterval` and `PingTimeout` of the config that created
the connection, unmodified. -/
theorem pingParams_pure (wsc : WebsocketConnection) (ops : List ConnOp) :
    PingParams (runOps wsc ops)
      = (wsc.transport.PingInterval, wsc.transport.PingTimeout) := by
  induction ops generalizing wsc with
  | nil => rfl
  | cons op rest ih =>
    cases op with
    | read now ev =>
      rw [runOps, ih, getMessage_transport_eq]
    | write now o m =>
      rw [runOps, ih, writeMessage_transport_eq]

/-- C9: `TlsWebsocketTransport` returns a config equal to the default
config in every timing and sizing field, with the given outbound headers
and TLS policy applied; it is a pure value construction. -/
theorem tlsWebsocketTransport_from_defaults (headers : Option Header)
    (tlsClientConfig : Option TlsConfig) :
    (TlsWebsocketTransport headers tlsClientConfig).PingInterval
        = GeDefaultWebsocketTransport.PingInterval ∧
    (TlsWebsocketTransport headers tlsClientConfig).PingTimeout
        = GeDefaultWebsocketTransport.PingTimeout ∧
    (TlsWebsocketTransport headers tlsClientConfig).ReceiveTimeout
        = GeDefaultWebsocketTransport.ReceiveTimeout ∧
    (TlsWebsocketTransport headers tlsClientConfig).SendTimeout
        = GeDefaultWebsocketTransport.SendTimeout ∧
    (TlsWebsocketTransport headers tlsClientConfig).BufferSize
        = GeDefaultWebsocketTransport.BufferSize ∧
    (TlsWebsocketTransport headers tlsClientConfig).Headers = headers ∧
    (TlsWebsocketTransport headers tlsClientConfig).TLSClientConfig
        = tlsClientConfig :=
  ⟨rfl, rfl, rfl, rfl, rfl, rfl, rfl⟩

/-- C10: `WriteMessage` validates nothing about its payload — for every
string, the empty string included, it proceeds through the socket steps
and succeeds whenever they succeed, placing the full payload on the wire;
and since the read side rejects a zero-length text frame with
`ErrorPacketWrong`, a successfully written empty message can never be
successfully read by the peer. -/
theorem writeMessage_no_validation (wsc : WebsocketConnection) (now : Duration)
    (o : WriteOutcome) (message : String) (hnw : o.nextWriterErr = none)
    (hw : o.writeErr = none) (hc : o.closeErr = none) :
    (WriteMessage wsc now o message).1 = none ∧
    (WriteMessage wsc now o message).2.socket.sent
      = wsc.socket.sent ++ [message] ∧
    (∀ wsc2 now2,
      (GetMessage wsc2 now2 (ReadEvent.frame TextMessage (Except.ok ""))).1
        = Except.error GoError.ErrorPacketWrong) := by
  rcases o with ⟨nwErr, wErr, cErr⟩
  cases hnw
  cases hw
  cases hc
  refine ⟨rfl, rfl, ?_⟩
  intro wsc2 now2
  simp [GetMessage]

/-- C10 witness: writing the empty string over a well-behaved socket
succeeds and sends a zero-length text frame, which the peer's read then
rejects with `ErrorPacketWrong`. -/
theorem writeMessage_no_validation_witness :
    (WriteMessage sampleConn 0 ⟨none, none, none⟩ "").1 = none ∧
    (WriteMessage sampleConn 0 ⟨none, none, none⟩ "").2.socket.sent = [""] ∧
    (GetMessage sampleConn 0 (ReadEvent.frame TextMessage (Except.ok ""))).1
      = Except.error GoError.ErrorPacketWrong := by
  obtain ⟨h1, h2, h3⟩ :=
    writeMessage_no_validation sampleConn 0 ⟨none, none, none⟩ "" rfl rfl rfl
  exact ⟨h1, h2, h3 sampleConn 0⟩

end transport
